import Mathlib

/-!
Shallow embedding of the ZeroErr arm EtherCAT interface node
(`zeroerr_interface.cpp`).  The embedded pieces are:

* the CiA402 drive state machine `state_transition_`,
* the slave operational gate `check_slave_config_states_`,
* the cyclic PDO exchange loop `cyclic_pdo_loop_`,
* the unit converter `convert_count_to_rad_`,
* the arm command callback `arm_cmd_cb_`.

Machine integers are modelled as `Nat` (16-bit status/control words;
all masked arithmetic stays far below any overflow boundary) and `Int`
(32-bit signed positions).  Wall-clock seconds are modelled as `Int`.
-/

/-- Number of joints of the arm (`NUM_JOINTS` = 6). -/
def NUM_JOINTS : Nat := 6

/-- CiA402 drive profile states, as stored in the per-joint `driveState`
array of the node. -/
inductive DriveState where
  | notReady
  | switchOnDisabled
  | ready
  | switchedOn
  | operationEnabled
  | quickStopActive
  | faultReactionActive
  | fault
deriving DecidableEq, Repr

/-- Log events emitted by the node that are relevant to the claims:
per-joint drive-state logs, the target-position-fix error log, the
per-joint operational-change log of the slave gate. -/
inductive LogEvent where
  | stateLog : Fin 6 → DriveState → LogEvent
  | targetFixWarning : Fin 6 → LogEvent
  | jointOperationalLog : Fin 6 → Bool → LogEvent
deriving DecidableEq, Repr

/-- Bus-level operations performed by the cyclic loop, recorded in the
order the corresponding `ecrt_*` / `EC_WRITE_*` calls happen. -/
inductive BusOp where
  | receive
  | process
  | queue
  | send
  | reset
  | writeCtrl : Fin 6 → Nat → BusOp
  | writeTarget : Fin 6 → Int → BusOp
deriving DecidableEq, Repr

/-- Successor of the joint cursor: the source increments `joint_no_` and
resets it to 0 when it reaches `NUM_JOINTS`. -/
def finSucc (jn : Fin 6) : Fin 6 :=
  if h : jn.val = 5 then ⟨0, by omega⟩
  else ⟨jn.val + 1, by have := jn.isLt; omega⟩

/-- Result of one call of `state_transition_` for the joint at the cursor:
the (possibly rewritten) control word and target position of that joint,
its new `driveState` entry, the log messages emitted, the domain writes
performed, the new cursor and the return value (`true` iff the cursor
reached `NUM_JOINTS` and was reset). -/
structure STResult where
  ctrl : Nat
  target : Int
  drive : DriveState
  logs : List LogEvent
  writes : List BusOp
  jnNext : Fin 6
  allDone : Bool
deriving DecidableEq, Repr

/-- One call of `state_transition_` (zeroerr_interface.cpp:485-584) acting on
the joint `jn` currently addressed by the cursor.  `statusWord` and
`ctrlWord` are the domain values read for that joint, `actualPos` and
`targetPos` its position fields, `d` its stored `driveState` entry.  The
chained conditionals, masks and patterns are transcribed verbatim from the
source. -/
def state_transition (jn : Fin 6) (statusWord ctrlWord : Nat)
    (actualPos targetPos : Int) (d : DriveState) : STResult :=
  if statusWord &&& 0b01001111 = 0b00000000 then
    { ctrl := ctrlWord, target := targetPos, drive := DriveState.notReady,
      logs := if d = DriveState.notReady then []
              else [LogEvent.stateLog jn DriveState.notReady],
      writes := [], jnNext := jn, allDone := false }
  else if statusWord &&& 0b01001111 = 0b01000000 then
    { ctrl := (ctrlWord &&& 0b01111110) ||| 0b00000110, target := targetPos,
      drive := DriveState.switchOnDisabled,
      logs := if d = DriveState.switchOnDisabled then []
              else [LogEvent.stateLog jn DriveState.switchOnDisabled],
      writes := [BusOp.writeCtrl jn ((ctrlWord &&& 0b01111110) ||| 0b00000110)],
      jnNext := jn, allDone := false }
  else if statusWord &&& 0b01101111 = 0b00100001 then
    { ctrl := (ctrlWord &&& 0b01110111) ||| 0b00000111, target := targetPos,
      drive := DriveState.ready,
      logs := if d = DriveState.ready then []
              else [LogEvent.stateLog jn DriveState.ready],
      writes := [BusOp.writeCtrl jn ((ctrlWord &&& 0b01110111) ||| 0b00000111)],
      jnNext := jn, allDone := false }
  else if statusWord &&& 0b01101111 = 0b00100011 then
    { ctrl := (ctrlWord &&& 0b01111111) ||| 0b00001111,
      target := if d = DriveState.switchedOn then targetPos
                else if actualPos = targetPos then targetPos
                else actualPos,
      drive := DriveState.switchedOn,
      logs := if d = DriveState.switchedOn then []
              else if actualPos = targetPos then
                [LogEvent.stateLog jn DriveState.switchedOn]
              else
                [LogEvent.stateLog jn DriveState.switchedOn,
                 LogEvent.targetFixWarning jn],
      writes := if d = DriveState.switchedOn ∨ actualPos = targetPos then
                  [BusOp.writeCtrl jn ((ctrlWord &&& 0b01111111) ||| 0b00001111)]
                else
                  [BusOp.writeCtrl jn ((ctrlWord &&& 0b01111111) ||| 0b00001111),
                   BusOp.writeTarget jn actualPos],
      jnNext := jn, allDone := false }
  else if statusWord &&& 0b01101111 = 0b00100111 then
    { ctrl := ctrlWord, target := targetPos,
      drive := DriveState.operationEnabled,
      logs := if d = DriveState.operationEnabled then []
              else [LogEvent.stateLog jn DriveState.operationEnabled],
      writes := [], jnNext := finSucc jn, allDone := decide (jn.val = 5) }
  else if statusWord &&& 0b01101111 = 0b00000111 then
    { ctrl := (ctrlWord &&& 0b01111111) ||| 0b00001111, target := targetPos,
      drive := DriveState.quickStopActive,
      logs := [LogEvent.stateLog jn DriveState.quickStopActive],
      writes := [BusOp.writeCtrl jn ((ctrlWord &&& 0b01111111) ||| 0b00001111)],
      jnNext := jn, allDone := false }
  else if statusWord &&& 0b01001111 = 0b00001111 then
    { ctrl := 0x0080, target := targetPos,
      drive := DriveState.faultReactionActive,
      logs := [LogEvent.stateLog jn DriveState.faultReactionActive],
      writes := [BusOp.writeCtrl jn 0x0080],
      jnNext := jn, allDone := false }
  else if statusWord &&& 0b01001111 = 0b00001000 then
    { ctrl := (ctrlWord &&& 0b11111111) ||| 0b10000000, target := targetPos,
      drive := DriveState.fault,
      logs := if d = DriveState.fault then []
              else [LogEvent.stateLog jn DriveState.fault],
      writes := [BusOp.writeCtrl jn ((ctrlWord &&& 0b11111111) ||| 0b10000000)],
      jnNext := jn, allDone := false }
  else
    { ctrl := ctrlWord, target := targetPos, drive := d, logs := [],
      writes := [], jnNext := jn, allDone := false }

/-- Result of one call of `check_slave_config_states_`: new cursor, the
return value, the stored operational flag and the emitted logs. -/
structure CSResult where
  jnNext : Fin 6
  ready : Bool
  storedOper : Bool
  logs : List LogEvent
deriving DecidableEq, Repr

/-- One call of `check_slave_config_states_` (zeroerr_interface.cpp:844-876):
`oper` is the freshly read operational flag of joint `jn`, `stored` the
previously stored `joint_ec_states[jn].operational`.  The cursor advances
exactly when the checked joint is operational and resets to 0 (returning
`true`) when it reaches `NUM_JOINTS`. -/
def check_slave_config_states (jn : Fin 6) (oper stored : Bool) : CSResult :=
  { jnNext := if oper then finSucc jn else jn,
    ready := oper && decide (jn.val = 5),
    storedOper := oper,
    logs := if oper = stored then [] else [LogEvent.jointOperationalLog jn oper] }

/-- Wraparound fold of `convert_count_to_rad_`
(zeroerr_interface.cpp:762-777): counts whose magnitude exceeds
`MAX_COUNT` are folded to `sign(counts) * (MAX_COUNT - |counts| % MAX_COUNT)`.
`MAX_COUNT` itself lives in the missing header; modelled from the spec as a
parameter (the encoder single-turn range, a positive constant). -/
def fold_counts (MAX_COUNT : Int) (counts : Int) : Int :=
  if (if 0 < counts then MAX_COUNT < counts
      else MAX_COUNT < (counts.natAbs : Int)) then
    if 0 < counts then MAX_COUNT - counts % MAX_COUNT
    else -(MAX_COUNT - (counts.natAbs : Int) % MAX_COUNT)
  else counts

/-- Function `convert_count_to_rad_` (zeroerr_interface.cpp:762-777).  The
`COUNT_TO_RAD` macro is in the missing header; modelled from the spec:
multiply by a fixed counts-per-radian `scale` factor. -/
def convert_count_to_rad (MAX_COUNT : Int) (scale : ℚ) (counts : Int) : ℚ :=
  (fold_counts MAX_COUNT counts : ℤ) * scale

/-- Per-cycle environment of `cyclic_pdo_loop_`: the wall-clock time
`this->now().seconds()` and the drive-written domain fields (status words,
actual positions) plus the fieldbus operational flags made available by the
`ecrt_master_receive` / `ecrt_domain_process` pair at the top of the cycle. -/
structure CycleEnv where
  now : Int
  statusWord : Fin 6 → Nat
  actualPos : Fin 6 → Int
  slaveOper : Fin 6 → Bool

/-- Persistent state of the node across cycles: master-written domain
fields (control words, target positions), the per-joint `driveState`
array, the shared cursor `joint_no_`, the flags `joints_OP_` and
`joints_op_enabled_`, the retry timestamp `stamp_`, the housekeeping
`counter_`, the stored `joint_ec_states` operational flags, the
`joint_states_enc_counts_` cache and the shared `joint_commands_`. -/
structure LoopState where
  ctrlWord : Fin 6 → Nat
  targetPos : Fin 6 → Int
  drive : Fin 6 → DriveState
  jointNo : Fin 6
  jointsOP : Bool
  jointsOpEnabled : Bool
  stamp : Int
  counter : Nat
  storedOper : Fin 6 → Bool
  encCounts : Fin 6 → Int
  jointCommands : Fin 6 → Int

/-- The steady-state target writes of `cyclic_pdo_loop_`: when
`joints_op_enabled_` is set, `TargetPosition[i] = joint_commands_[i]` is
written for every joint. -/
def steadyWrites (s : LoopState) : List BusOp :=
  if s.jointsOpEnabled then
    List.ofFn fun i : Fin 6 => BusOp.writeTarget i (s.jointCommands i)
  else []

/-- Tail of `cyclic_pdo_loop_` (zeroerr_interface.cpp:698-757): the
steady-state target-write block guarded by `joints_op_enabled_`, followed by
`ecrt_domain_queue` and `ecrt_master_send`. -/
def finishCycle (s : LoopState) (tr : List BusOp) : LoopState × List BusOp :=
  (if s.jointsOpEnabled then { s with targetPos := s.jointCommands } else s,
   tr ++ steadyWrites s ++ [BusOp.queue, BusOp.send])

/-- One iteration of `cyclic_pdo_loop_` (zeroerr_interface.cpp:636-760):
receive/process, refresh the encoder-count cache, run the housekeeping
counter (`counterReset` is `1000 / CYCLIC_DATA_PERIOD`, a constant from the
missing header; its value is irrelevant, the counter guards no action),
then either advance the drive state machine (when `joints_OP_`) or advance
the slave gate with the 10-second master-reset retry, then the steady-state
target writes and queue/send. -/
def cyclic_pdo_loop (counterReset : Nat) (env : CycleEnv) (s0 : LoopState) :
    LoopState × List BusOp :=
  let s1 : LoopState := { s0 with encCounts := env.actualPos }
  let s2 : LoopState :=
    { s1 with counter := if s1.counter ≠ 0 then s1.counter - 1 else counterReset }
  if s2.jointsOP then
    let r := state_transition s2.jointNo (env.statusWord s2.jointNo)
      (s2.ctrlWord s2.jointNo) (env.actualPos s2.jointNo)
      (s2.targetPos s2.jointNo) (s2.drive s2.jointNo)
    let s3 : LoopState :=
      { s2 with
        ctrlWord := Function.update s2.ctrlWord s2.jointNo r.ctrl,
        targetPos := Function.update s2.targetPos s2.jointNo r.target,
        drive := Function.update s2.drive s2.jointNo r.drive,
        jointNo := r.jnNext,
        jointsOpEnabled := r.allDone }
    finishCycle s3 ([BusOp.receive, BusOp.process] ++ r.writes)
  else
    let c := check_slave_config_states s2.jointNo (env.slaveOper s2.jointNo)
      (s2.storedOper s2.jointNo)
    let s3 : LoopState :=
      { s2 with
        jointsOP := c.ready,
        jointNo := c.jnNext,
        storedOper := Function.update s2.storedOper s2.jointNo c.storedOper }
    if 10 ≤ env.now - s3.stamp then
      finishCycle { s3 with stamp := env.now }
        [BusOp.receive, BusOp.process, BusOp.reset, BusOp.receive, BusOp.process]
    else
      finishCycle s3 [BusOp.receive, BusOp.process]

/-- A run of consecutive cyclic-exchange iterations, with the concatenated
trace of bus operations. -/
def runCycles (counterReset : Nat) : List CycleEnv → LoopState → LoopState × List BusOp
  | [], s => (s, [])
  | e :: rest, s =>
    let p := cyclic_pdo_loop counterReset e s
    let q := runCycles counterReset rest p.1
    (q.1, p.2 ++ q.2)

/-- Single-joint view of a `state_transition_` run: the domain fields of
the one joint being commissioned plus the cursor. -/
structure JointRun where
  ctrl : Nat
  target : Int
  actual : Int
  drive : DriveState
  jn : Fin 6
deriving DecidableEq, Repr

/-- One `state_transition_` call applied to the single-joint view. -/
def stepJoint (s : JointRun) (statusWord : Nat) : JointRun :=
  let r := state_transition s.jn statusWord s.ctrl s.actual s.target s.drive
  { ctrl := r.ctrl, target := r.target, actual := s.actual,
    drive := r.drive, jn := r.jnNext }

/-- Feed a sequence of status words to the single-joint state machine,
recording the state after every step. -/
def runSeq : List Nat → JointRun → List JointRun
  | [], _ => []
  | w :: ws, s =>
    let s2 := stepJoint s w
    s2 :: runSeq ws s2

/-- The slave operational gate lifted to the full vector of per-joint
operational flags: a single call only reads the flag of the joint at the
cursor. -/
def check_slave_vec (f stored : Fin 6 → Bool) (jn : Fin 6) : CSResult :=
  check_slave_config_states jn (f jn) (stored jn)

/-- Repeated calls of the gate with every joint reporting operational:
the list of return values of each call and the final cursor. -/
def gateRun : Nat → Fin 6 → List Bool × Fin 6
  | 0, jn => ([], jn)
  | k + 1, jn =>
    let r := check_slave_config_states jn true true
    let rest := gateRun k r.jnNext
    (r.ready :: rest.1, rest.2)

/-- Modelled from the spec: `RAD_TO_COUNT` (a macro in the missing header)
is the inverse of the count-to-radian conversion — plain multiplication by
the counts-per-radian factor, with no wraparound fold on the write path. -/
def RAD_TO_COUNT (countsPerRad : ℚ) (x : ℚ) : ℚ := x * countsPerRad

/-- Callback `arm_cmd_cb_` (zeroerr_interface.cpp:884-891): iterates `i` over
`[0, arm_cmd->position.size())` and writes
`joint_commands_[i] = RAD_TO_COUNT(position[i])`, with no bound check
against `NUM_JOINTS`.  Returns the `(index, value)` writes performed, in
order. -/
def arm_cmd_cb (countsPerRad : ℚ) (positions : List ℚ) : List (Nat × ℚ) :=
  (List.range positions.length).map
    (fun i => (i, RAD_TO_COUNT countsPerRad (positions.getD i 0)))

/-- Steady-state cycle environment: every joint reports the
OPERATION_ENABLED status pattern `0b0100111`. -/
def envAllOpEnabled : CycleEnv :=
  { now := 1, statusWord := fun _ => 0x27, actualPos := fun _ => 0,
    slaveOper := fun _ => true }

/-- Steady-state loop state one cycle after a completed bring-up sweep:
all drive states are OPERATION_ENABLED, `joints_op_enabled_` is still set
from the completing cycle, and the cursor is back at joint 0. -/
def stateAllOpEnabled : LoopState :=
  { ctrlWord := fun _ => 0x0F, targetPos := fun _ => 0,
    drive := fun _ => DriveState.operationEnabled, jointNo := 0,
    jointsOP := true, jointsOpEnabled := true, stamp := 0, counter := 5,
    storedOper := fun _ => true, encCounts := fun _ => 0,
    jointCommands := fun _ => 100 }

/-- Cycle environment for the operational-gate timeout: 20 simulated
seconds after the stored timestamp, with no joint operational. -/
def envTimeout : CycleEnv :=
  { now := 20, statusWord := fun _ => 0, actualPos := fun _ => 0,
    slaveOper := fun _ => false }

/-- Loop state still waiting for the joints to reach the EtherCAT OP
state (`joints_OP_` false), timestamp at 0. -/
def stateWaitingOP : LoopState :=
  { ctrlWord := fun _ => 0, targetPos := fun _ => 0,
    drive := fun _ => DriveState.notReady, jointNo := 0,
    jointsOP := false, jointsOpEnabled := false, stamp := 0, counter := 5,
    storedOper := fun _ => false, encCounts := fun _ => 0,
    jointCommands := fun _ => 0 }

/-- The eight (mask, pattern) rows of the chained conditional of
`state_transition_`, in source order. -/
def statusRows : List (Nat × Nat) :=
  [(0b01001111, 0b00000000), (0b01001111, 0b01000000),
   (0b01101111, 0b00100001), (0b01101111, 0b00100011),
   (0b01101111, 0b00100111), (0b01101111, 0b00000111),
   (0b01001111, 0b00001111), (0b01001111, 0b00001000)]

/-- A status word matches a row when `(statusWord & mask) == pattern`. -/
def rowMatches (s : Nat) (r : Nat × Nat) : Bool := s &&& r.1 == r.2

/-- Number of rows of the §4.2 table matched by a status word. -/
def matchCount (s : Nat) : Nat := (statusRows.filter (rowMatches s)).length

/-! ## Helper lemmas -/

/-- A status word matching a pattern under the wide mask `0b01101111` has a
determined value under the narrower mask `0b01001111` as well. -/
lemma and79_of_and111 (s v : Nat) (h : s &&& 0b01101111 = v) :
    s &&& 0b01001111 = v &&& 0b01001111 := by
  have h2 : (0b01101111 : Nat) &&& 0b01001111 = 0b01001111 := by decide
  rw [← h, Nat.and_assoc, h2]

/-- The fold of `convert_count_to_rad_` is the identity on counts whose
magnitude is at most `MAX_COUNT`. -/
lemma fold_counts_eq_self (M c : Int) (h : (c.natAbs : Int) ≤ M) :
    fold_counts M c = c := by
  unfold fold_counts
  split_ifs with h1 h2 h3 <;> omega

/-- The fold of `convert_count_to_rad_` on counts whose magnitude exceeds
`MAX_COUNT`. -/
lemma fold_counts_eq_fold (M c : Int) (hM : 0 < M) (h : M < (c.natAbs : Int)) :
    fold_counts M c = c.sign * (M - (c.natAbs : Int) % M) := by
  unfold fold_counts
  split_ifs with h1 h2
  · rw [Int.sign_eq_one_iff_pos.mpr h1, Int.natAbs_of_nonneg h1.le, one_mul]
  · omega
  · have hneg : c < 0 := by omega
    rw [Int.sign_eq_neg_one_iff_neg.mpr hneg]
    ring

/-- A status word matching a pattern `w` under the wide mask cannot also
have an incompatible value under the narrow mask. -/
lemma ne_and111_of_and79 (s v w : Nat) (h : s &&& 0b01001111 = v)
    (hw : w &&& 0b01001111 ≠ v) : s &&& 0b01101111 ≠ w := by
  intro hc
  exact hw (by rw [← and79_of_and111 s w hc, h])

/-- Behaviour of `state_transition_` in the SWITCHED_ON branch with a state change and a
target/actual mismatch: control word rewritten, target snapped to the
actual position, warning logged. -/
lemma st_switched_on_fix (jn : Fin 6) (s c : Nat) (ap tp : Int)
    (d : DriveState) (h : s &&& 0b01101111 = 0b00100011)
    (hd : d ≠ DriveState.switchedOn) (hne : ap ≠ tp) :
    state_transition jn s c ap tp d =
      { ctrl := (c &&& 0b01111111) ||| 0b00001111, target := ap,
        drive := DriveState.switchedOn,
        logs := [LogEvent.stateLog jn DriveState.switchedOn,
                 LogEvent.targetFixWarning jn],
        writes := [BusOp.writeCtrl jn ((c &&& 0b01111111) ||| 0b00001111),
                   BusOp.writeTarget jn ap],
        jnNext := jn, allDone := false } := by
  have h79 := and79_of_and111 s 0b00100011 h
  simp +decide [state_transition, h, h79, hd, hne]

/-- Behaviour of `state_transition_` in the OPERATION_ENABLED branch: no write, cursor
advances, return value true exactly when the cursor was at the last
joint. -/
lemma st_op_enabled (jn : Fin 6) (s c : Nat) (ap tp : Int) (d : DriveState)
    (h : s &&& 0b01101111 = 0b00100111) :
    state_transition jn s c ap tp d =
      { ctrl := c, target := tp, drive := DriveState.operationEnabled,
        logs := if d = DriveState.operationEnabled then []
                else [LogEvent.stateLog jn DriveState.operationEnabled],
        writes := [], jnNext := finSucc jn, allDone := decide (jn.val = 5) } := by
  have h79 := and79_of_and111 s 0b00100111 h
  simp +decide [state_transition, h, h79]

/-- Every domain write performed by `state_transition_` is a control-word
or target-position write: the counts of receive/process/queue/send/reset
operations in its write list are all zero. -/
lemma st_writes_counts (jn : Fin 6) (s c : Nat) (ap tp : Int)
    (d : DriveState) :
    ((state_transition jn s c ap tp d).writes).count BusOp.receive = 0 ∧
    ((state_transition jn s c ap tp d).writes).count BusOp.process = 0 ∧
    ((state_transition jn s c ap tp d).writes).count BusOp.queue = 0 ∧
    ((state_transition jn s c ap tp d).writes).count BusOp.send = 0 ∧
    ((state_transition jn s c ap tp d).writes).count BusOp.reset = 0 := by
  unfold state_transition
  split_ifs <;> simp [List.count_cons, List.count_nil]

/-- The steady-state target writes contain no bus-level operation. -/
lemma steadyWrites_counts (s : LoopState) :
    (steadyWrites s).count BusOp.receive = 0 ∧
    (steadyWrites s).count BusOp.process = 0 ∧
    (steadyWrites s).count BusOp.queue = 0 ∧
    (steadyWrites s).count BusOp.send = 0 ∧
    (steadyWrites s).count BusOp.reset = 0 := by
  unfold steadyWrites
  split <;> simp [List.count_eq_zero, List.mem_ofFn]

/-! ## Claims -/

/-- Claim C1: for a single joint starting disconnected, feeding the drive
state machine the StatusWord values 0x00, 0x40, 0x21, 0x23, 0x27 on five
consecutive steps yields the recorded DriveState sequence exactly
NOT_READY, SWITCH_ON_DISABLED, READY, SWITCHED_ON, OPERATION_ENABLED, and
the ControlWord after each step equals the table entry of §4.2: none;
(ctrl & 0b01111110) | 0b00000110; (ctrl & 0b01110111) | 0b00000111;
(ctrl & 0b01111111) | 0b00001111; none.  The initial drive state, control
word and positions are arbitrary. -/
theorem c1_bringup_sequence (c0 : Nat) (d0 : DriveState) (tp ap : Int) :
    (runSeq [0x00, 0x40, 0x21, 0x23, 0x27]
        { ctrl := c0, target := tp, actual := ap, drive := d0, jn := 0 }).map
      JointRun.drive =
      [DriveState.notReady, DriveState.switchOnDisabled, DriveState.ready,
       DriveState.switchedOn, DriveState.operationEnabled] ∧
    (runSeq [0x00, 0x40, 0x21, 0x23, 0x27]
        { ctrl := c0, target := tp, actual := ap, drive := d0, jn := 0 }).map
      JointRun.ctrl =
      [c0,
       (c0 &&& 0b01111110) ||| 0b00000110,
       ((((c0 &&& 0b01111110) ||| 0b00000110) &&& 0b01110111) ||| 0b00000111),
       ((((((c0 &&& 0b01111110) ||| 0b00000110) &&& 0b01110111) ||| 0b00000111)
          &&& 0b01111111) ||| 0b00001111),
       ((((((c0 &&& 0b01111110) ||| 0b00000110) &&& 0b01110111) ||| 0b00000111)
          &&& 0b01111111) ||| 0b00001111)] := by
  by_cases h : ap = tp <;>
    simp +decide [runSeq, stepJoint, state_transition, finSucc, h]

/-- Claim C2: for every counts value, the unit converter returns
`c * scale` when `|c| ≤ MAX_COUNT` (no folding), and
`sign(c) * (MAX_COUNT - |c| % MAX_COUNT) * scale` when `|c| > MAX_COUNT`;
in particular `countsToRadians(MAX_COUNT+1) = countsToRadians(MAX_COUNT-1)`.
`MAX_COUNT` (missing header) is modelled from the spec as a parameter: the
encoder's single-turn range, hence at least 2. -/
theorem c2_unit_converter (M : Int) (scale : ℚ) (c : Int) (hM : 2 ≤ M) :
    ((c.natAbs : Int) ≤ M →
      convert_count_to_rad M scale c = (c : ℚ) * scale) ∧
    (M < (c.natAbs : Int) →
      convert_count_to_rad M scale c =
        ((c.sign * (M - (c.natAbs : Int) % M) : Int) : ℚ) * scale) ∧
    convert_count_to_rad M scale (M + 1) = convert_count_to_rad M scale (M - 1) :=
  by
  refine ⟨fun h => ?_, fun h => ?_, ?_⟩
  · rw [convert_count_to_rad, fold_counts_eq_self M c h]
  · rw [convert_count_to_rad, fold_counts_eq_fold M c (by omega) h]
  · have e1 : fold_counts M (M + 1) = M - 1 := by
      have h2 : (M + 1) % M = 1 := by
        rw [add_comm]
        have h3 : (1 + M * 1) % M = 1 % M := Int.add_mul_emod_self_left 1 M 1
        rw [mul_one] at h3
        rw [h3, Int.emod_eq_of_lt (by omega) (by omega)]
      have hgt : M < (Int.natAbs (M + 1) : Int) := by omega
      rw [fold_counts_eq_fold M (M + 1) (by omega) hgt]
      have hs : (M + 1).sign = 1 := Int.sign_eq_one_iff_pos.mpr (by omega)
      have habs : ((M + 1).natAbs : Int) = M + 1 := by omega
      rw [hs, habs, h2, one_mul]
    have e2 : fold_counts M (M - 1) = M - 1 :=
      fold_counts_eq_self M (M - 1) (by omega)
    rw [convert_count_to_rad, convert_count_to_rad, e1, e2]

/-- Witness for C2 at `MAX_COUNT = 100`, `scale = 1`, `c = 5`. -/
theorem c2_unit_converter_witness :
    convert_count_to_rad 100 1 5 = ((5 : Int) : ℚ) * 1 :=
  (c2_unit_converter 100 1 5 (by norm_num)).1 (by norm_num)

/-- Matching against the table only depends on the low seven bits of the
status word (every mask is contained in `127`). -/
lemma matchCount_and127 (s : Nat) : matchCount s = matchCount (s &&& 127) := by
  unfold matchCount
  refine congrArg List.length (List.filter_congr ?_)
  intro r hr
  have key : ∀ m p : Nat, (127 : Nat) &&& m = m →
      rowMatches s (m, p) = rowMatches (s &&& 127) (m, p) := by
    intro m p hm
    unfold rowMatches
    rw [Nat.and_assoc, hm]
  simp only [statusRows, List.mem_cons, List.not_mem_nil, or_false] at hr
  rcases hr with rfl | rfl | rfl | rfl | rfl | rfl | rfl | rfl <;>
    exact key _ _ (by decide)

/-- Every status word below 128 matches at most one row of the table. -/
lemma matchCount_le_one_small : ∀ t, t < 128 → matchCount t ≤ 1 := by decide

/-- Claim C9: the eight (mask, pattern) rows of the §4.2 status-word
table are mutually exclusive — for every 16-bit status word value, at most
one row satisfies `(statusWord & mask) == pattern`, so the chained
conditional dispatch of `state_transition_` has exactly one match path for
any word that matches at all. -/
theorem c9_rows_mutually_exclusive (s : Nat) (_hs : s < 65536) :
    matchCount s ≤ 1 := by
  rw [matchCount_and127]
  exact matchCount_le_one_small (s &&& 127)
    (Nat.lt_succ_of_le (Nat.and_le_right))

/-- Witness for C9 at the OPERATION_ENABLED pattern 0x27. -/
theorem c9_rows_mutually_exclusive_witness : matchCount 0x27 ≤ 1 :=
  c9_rows_mutually_exclusive 0x27 (by norm_num)

/-- Claim C6: the slave operational gate checks one joint per call (the
result depends only on the flag of the joint at the cursor), the cursor
never decreases except for the wrap, advances by one exactly when the
checked joint reports operational, wraps to 0 with return value `true`
exactly when the sixth joint is confirmed; six joints reporting
operational in index order over six consecutive calls make the gate
return `true` exactly on the sixth call, with the cursor 0 afterward. -/
theorem c6_gate_behaviour :
    (∀ (f g stored : Fin 6 → Bool) (jn : Fin 6), f jn = g jn →
      check_slave_vec f stored jn = check_slave_vec g stored jn) ∧
    (∀ (jn : Fin 6) (oper stored : Bool), oper = false →
      (check_slave_config_states jn oper stored).jnNext = jn ∧
      (check_slave_config_states jn oper stored).ready = false) ∧
    (∀ (jn : Fin 6) (oper stored : Bool), oper = true → jn.val ≠ 5 →
      (check_slave_config_states jn oper stored).jnNext.val = jn.val + 1 ∧
      (check_slave_config_states jn oper stored).ready = false) ∧
    (∀ (jn : Fin 6) (oper stored : Bool), oper = true → jn.val = 5 →
      (check_slave_config_states jn oper stored).jnNext = 0 ∧
      (check_slave_config_states jn oper stored).ready = true) ∧
    gateRun 6 0 = ([false, false, false, false, false, true], 0) := by
  refine ⟨?_, ?_, ?_, ?_, by decide⟩
  · intro f g stored jn hfg
    unfold check_slave_vec
    rw [hfg]
  · intro jn oper stored hop
    subst hop
    simp [check_slave_config_states]
  · intro jn oper stored hop h5
    subst hop
    simp [check_slave_config_states, finSucc, h5]
  · intro jn oper stored hop h5
    subst hop
    constructor
    · simp only [check_slave_config_states, if_true, Bool.true_and]
      unfold finSucc
      rw [dif_pos h5]
      rfl
    · simp [check_slave_config_states, h5]

/-- Witness for C6: an operational joint at cursor 2 advances the cursor
to 3 without reporting ready. -/
theorem c6_gate_behaviour_witness :
    (check_slave_config_states 2 true true).jnNext.val = (2 : Fin 6).val + 1 ∧
    (check_slave_config_states 2 true true).ready = false :=
  c6_gate_behaviour.2.2.1 2 true true rfl (by decide)

/-- Claim C10: the arm command callback writes
`joint_commands_[i] = RAD_TO_COUNT(position[i])` for every `i` up to
`position.size() - 1` with no bound check against `NUM_JOINTS`: every
write is in bounds for messages with at most 6 positions, but a message
carrying more than 6 positions produces a write past the end of the
6-element `joint_commands_` container. -/
theorem c10_arm_cmd_bounds :
    (∀ (cpr : ℚ) (positions : List ℚ), positions.length ≤ NUM_JOINTS →
      ∀ p ∈ arm_cmd_cb cpr positions, p.1 < NUM_JOINTS) ∧
    (∃ (cpr : ℚ) (positions : List ℚ),
      ∃ p ∈ arm_cmd_cb cpr positions, NUM_JOINTS ≤ p.1) := by
  constructor
  · intro cpr positions hlen p hp
    unfold arm_cmd_cb at hp
    simp only [List.mem_map, List.mem_range] at hp
    obtain ⟨i, hi, rfl⟩ := hp
    simp only [NUM_JOINTS] at hlen ⊢
    omega
  · refine ⟨1, List.replicate 7 0,
      (6, RAD_TO_COUNT 1 ((List.replicate 7 (0 : ℚ)).getD 6 0)), ?_, ?_⟩
    · unfold arm_cmd_cb
      simp only [List.mem_map, List.mem_range]
      exact ⟨6, by norm_num, rfl⟩
    · norm_num [NUM_JOINTS]

/-- Witness for C10: the first write of a two-position message lands in
bounds. -/
theorem c10_arm_cmd_bounds_witness : (0 : Nat) < NUM_JOINTS :=
  c10_arm_cmd_bounds.1 1 [2] (by norm_num [NUM_JOINTS])
    (0, RAD_TO_COUNT 1 (([2] : List ℚ).getD 0 0))
    (by unfold arm_cmd_cb
        simp only [List.mem_map, List.mem_range]
        exact ⟨0, by norm_num, rfl⟩)

/-- Claim C5: on the cycle where a joint transitions to SWITCHED_ON with
`ActualPosition ≠ TargetPosition`, `state_transition_` snaps the target to
the actual position and logs a warning, and the cyclic loop keeps that
snapped value through the same cycle: the write appears in the trace
before the closing queue/send pair. -/
theorem c5_switched_on_target_fix :
    (∀ (jn : Fin 6) (s c : Nat) (ap tp : Int) (d : DriveState),
      s &&& 0b01101111 = 0b00100011 → d ≠ DriveState.switchedOn → ap ≠ tp →
      (state_transition jn s c ap tp d).drive = DriveState.switchedOn ∧
      (state_transition jn s c ap tp d).target = ap ∧
      LogEvent.targetFixWarning jn ∈ (state_transition jn s c ap tp d).logs ∧
      BusOp.writeTarget jn ap ∈ (state_transition jn s c ap tp d).writes) ∧
    (∀ (cr : Nat) (env : CycleEnv) (st : LoopState),
      st.jointsOP = true →
      env.statusWord st.jointNo &&& 0b01101111 = 0b00100011 →
      st.drive st.jointNo ≠ DriveState.switchedOn →
      env.actualPos st.jointNo ≠ st.targetPos st.jointNo →
      (cyclic_pdo_loop cr env st).1.targetPos st.jointNo =
        env.actualPos st.jointNo ∧
      ∃ mid, (cyclic_pdo_loop cr env st).2 =
          BusOp.receive :: BusOp.process :: (mid ++ [BusOp.queue, BusOp.send]) ∧
        BusOp.writeTarget st.jointNo (env.actualPos st.jointNo) ∈ mid) := by
  constructor
  · intro jn s c ap tp d h hd hne
    rw [st_switched_on_fix jn s c ap tp d h hd hne]
    refine ⟨rfl, rfl, by simp, by simp⟩
  · intro cr env st hOP h hd hne
    unfold cyclic_pdo_loop
    simp only [hOP, if_true]
    rw [st_switched_on_fix _ _ _ _ _ _ h hd hne]
    unfold finishCycle steadyWrites
    refine ⟨by simp [Function.update_same], ?_⟩
    refine ⟨[BusOp.writeCtrl st.jointNo
        ((st.ctrlWord st.jointNo &&& 0b01111111) ||| 0b00001111),
      BusOp.writeTarget st.jointNo (env.actualPos st.jointNo)], by simp, by simp⟩

/-- Witness for C5 at the spec's example: status 0x23, ActualPosition 1000,
TargetPosition 500 — the target becomes 1000. -/
theorem c5_switched_on_target_fix_witness :
    (state_transition 0 0x23 0 1000 500 DriveState.ready).target = 1000 :=
  (c5_switched_on_target_fix.1 0 0x23 0 1000 500 DriveState.ready (by decide)
    (by decide) (by decide)).2.1

/-- Counterexample to C8: for QUICK_STOP_ACTIVE (status pattern 0b0000111)
and FAULT_REACTION_ACTIVE (status pattern 0b0001111) the state log is
emitted even when the stored drive state already equals the matched state
— i.e. on every matching cycle, not only on the transition edge. -/
theorem c8_counterexample :
    (state_transition 0 0b0000111 0 0 0 DriveState.quickStopActive).drive =
      DriveState.quickStopActive ∧
    (state_transition 0 0b0000111 0 0 0 DriveState.quickStopActive).logs =
      [LogEvent.stateLog 0 DriveState.quickStopActive] ∧
    (state_transition 0 0b0001111 0 0 0 DriveState.faultReactionActive).drive =
      DriveState.faultReactionActive ∧
    (state_transition 0 0b0001111 0 0 0 DriveState.faultReactionActive).logs =
      [LogEvent.stateLog 0 DriveState.faultReactionActive] := by
  decide

/-- Amended C8: the drive state machine logs on the transition edge only —
a state log is emitted iff the newly matched state differs from the stored
one — for the six guarded states NOT_READY, SWITCH_ON_DISABLED, READY,
SWITCHED_ON, OPERATION_ENABLED and FAULT; for QUICK_STOP_ACTIVE and
FAULT_REACTION_ACTIVE the log is emitted on every cycle whose status word
matches the pattern, regardless of the stored state. -/
theorem c8_amended_edge_logging :
    (∀ (jn : Fin 6) (s c : Nat) (ap tp : Int) (d : DriveState),
      s &&& 0b01001111 = 0b00000000 →
      (LogEvent.stateLog jn DriveState.notReady ∈
        (state_transition jn s c ap tp d).logs ↔ d ≠ DriveState.notReady)) ∧
    (∀ (jn : Fin 6) (s c : Nat) (ap tp : Int) (d : DriveState),
      s &&& 0b01001111 = 0b01000000 →
      (LogEvent.stateLog jn DriveState.switchOnDisabled ∈
        (state_transition jn s c ap tp d).logs ↔
        d ≠ DriveState.switchOnDisabled)) ∧
    (∀ (jn : Fin 6) (s c : Nat) (ap tp : Int) (d : DriveState),
      s &&& 0b01101111 = 0b00100001 →
      (LogEvent.stateLog jn DriveState.ready ∈
        (state_transition jn s c ap tp d).logs ↔ d ≠ DriveState.ready)) ∧
    (∀ (jn : Fin 6) (s c : Nat) (ap tp : Int) (d : DriveState),
      s &&& 0b01101111 = 0b00100011 →
      (LogEvent.stateLog jn DriveState.switchedOn ∈
        (state_transition jn s c ap tp d).logs ↔ d ≠ DriveState.switchedOn)) ∧
    (∀ (jn : Fin 6) (s c : Nat) (ap tp : Int) (d : DriveState),
      s &&& 0b01101111 = 0b00100111 →
      (LogEvent.stateLog jn DriveState.operationEnabled ∈
        (state_transition jn s c ap tp d).logs ↔
        d ≠ DriveState.operationEnabled)) ∧
    (∀ (jn : Fin 6) (s c : Nat) (ap tp : Int) (d : DriveState),
      s &&& 0b01001111 = 0b00001000 →
      (LogEvent.stateLog jn DriveState.fault ∈
        (state_transition jn s c ap tp d).logs ↔ d ≠ DriveState.fault)) ∧
    (∀ (jn : Fin 6) (s c : Nat) (ap tp : Int) (d : DriveState),
      s &&& 0b01101111 = 0b00000111 →
      LogEvent.stateLog jn DriveState.quickStopActive ∈
        (state_transition jn s c ap tp d).logs) ∧
    (∀ (jn : Fin 6) (s c : Nat) (ap tp : Int) (d : DriveState),
      s &&& 0b01001111 = 0b00001111 →
      LogEvent.stateLog jn DriveState.faultReactionActive ∈
        (state_transition jn s c ap tp d).logs) := by
  refine ⟨?_, ?_, ?_, ?_, ?_, ?_, ?_, ?_⟩
  · intro jn s c ap tp d h
    simp +decide [state_transition, h]
  · intro jn s c ap tp d h
    simp +decide [state_transition, h]
  · intro jn s c ap tp d h
    have h79 := and79_of_and111 s 0b00100001 h
    simp +decide [state_transition, h, h79]
  · intro jn s c ap tp d h
    have h79 := and79_of_and111 s 0b00100011 h
    simp +decide [state_transition, h, h79]
    rcases eq_or_ne d DriveState.switchedOn with hd | hd <;>
      rcases eq_or_ne ap tp with he | he <;> simp [hd, he]
  · intro jn s c ap tp d h
    have h79 := and79_of_and111 s 0b00100111 h
    simp +decide [state_transition, h, h79]
  · intro jn s c ap tp d h
    have h33 := ne_and111_of_and79 s 0b00001000 0b00100001 h (by decide)
    have h35 := ne_and111_of_and79 s 0b00001000 0b00100011 h (by decide)
    have h39 := ne_and111_of_and79 s 0b00001000 0b00100111 h (by decide)
    have h07 := ne_and111_of_and79 s 0b00001000 0b00000111 h (by decide)
    simp +decide [state_transition, h, h33, h35, h39, h07]
  · intro jn s c ap tp d h
    have h79 := and79_of_and111 s 0b00000111 h
    simp +decide [state_transition, h, h79]
  · intro jn s c ap tp d h
    have h33 := ne_and111_of_and79 s 0b00001111 0b00100001 h (by decide)
    have h35 := ne_and111_of_and79 s 0b00001111 0b00100011 h (by decide)
    have h39 := ne_and111_of_and79 s 0b00001111 0b00100111 h (by decide)
    have h07 := ne_and111_of_and79 s 0b00001111 0b00000111 h (by decide)
    simp +decide [state_transition, h, h33, h35, h39, h07]

/-- Witness for the amended C8: a NOT_READY edge from READY emits the log. -/
theorem c8_amended_edge_logging_witness :
    LogEvent.stateLog 0 DriveState.notReady ∈
      (state_transition 0 0 0 0 0 DriveState.ready).logs :=
  (c8_amended_edge_logging.1 0 0 0 0 0 DriveState.ready rfl).mpr (by decide)

/-- Counterexample to C3: a steady-state cycle in which every joint
reports the OPERATION_ENABLED status pattern and every stored drive state
is OPERATION_ENABLED, yet the loop performs no TargetPosition write at
all: the target stays 0 while the external command is 100 (the write only
happens on the cycles where `state_transition_` returns true, i.e. every
sixth cycle). -/
theorem c3_counterexample :
    stateAllOpEnabled.drive 0 = DriveState.operationEnabled ∧
    stateAllOpEnabled.jointsOP = true ∧
    envAllOpEnabled.statusWord 0 &&& 0b01101111 = 0b00100111 ∧
    (cyclic_pdo_loop 1000 envAllOpEnabled stateAllOpEnabled).2 =
      [BusOp.receive, BusOp.process, BusOp.queue, BusOp.send] ∧
    (cyclic_pdo_loop 1000 envAllOpEnabled stateAllOpEnabled).1.targetPos 0 = 0 ∧
    stateAllOpEnabled.jointCommands 0 = 100 := by
  decide

/-- Amended C3: in steady state (all joints report the OPERATION_ENABLED
pattern and all stored drive states are OPERATION_ENABLED), the loop
writes `TargetPosition[i] = JointCommand[i]` for every joint exactly in
the cycles where the cursor is at the last joint (one cycle in six); in
the other cycles no TargetPosition write happens and the targets are
unchanged. -/
theorem c3_amended_steady_state_writes (cr : Nat) (env : CycleEnv)
    (st : LoopState) (hOP : st.jointsOP = true)
    (hst : ∀ i, env.statusWord i &&& 0b01101111 = 0b00100111)
    (_hdr : ∀ i, st.drive i = DriveState.operationEnabled) :
    (st.jointNo.val = 5 →
      (cyclic_pdo_loop cr env st).2 =
        BusOp.receive :: BusOp.process ::
          ((List.ofFn fun i : Fin 6 => BusOp.writeTarget i (st.jointCommands i))
            ++ [BusOp.queue, BusOp.send]) ∧
      (cyclic_pdo_loop cr env st).1.targetPos = st.jointCommands ∧
      (cyclic_pdo_loop cr env st).1.jointsOpEnabled = true) ∧
    (st.jointNo.val ≠ 5 →
      (cyclic_pdo_loop cr env st).2 =
        [BusOp.receive, BusOp.process, BusOp.queue, BusOp.send] ∧
      (cyclic_pdo_loop cr env st).1.targetPos = st.targetPos ∧
      (cyclic_pdo_loop cr env st).1.jointsOpEnabled = false) := by
  unfold cyclic_pdo_loop
  simp only [hOP, if_true]
  rw [st_op_enabled _ _ _ _ _ _ (hst st.jointNo)]
  constructor
  · intro h5
    unfold finishCycle steadyWrites
    simp +decide [h5, Function.update_eq_self]
  · intro h5
    unfold finishCycle steadyWrites
    simp +decide [h5, Function.update_eq_self]

/-- Counterexample to C4: in a cycle where the joints have not all reached
the bus-operational state and the 10-second timeout has elapsed, the loop
calls receive twice (once at the top of the cycle and once more after the
master reset), so receive is not called exactly once per cycle. -/
theorem c4_counterexample :
    (cyclic_pdo_loop 1000 envTimeout stateWaitingOP).2 =
      [BusOp.receive, BusOp.process, BusOp.reset, BusOp.receive,
       BusOp.process, BusOp.queue, BusOp.send] ∧
    ((cyclic_pdo_loop 1000 envTimeout stateWaitingOP).2).count BusOp.receive
      = 2 := by
  decide

/-- The tail `finishCycle` preserves the fields that `steadyWrites` reads. -/
lemma steadyWrites_finishCycle (s : LoopState) (tr : List BusOp) :
    steadyWrites (finishCycle s tr).1 = steadyWrites s := by
  by_cases hb : s.jointsOpEnabled <;> simp [finishCycle, steadyWrites, hb]

/-- Trace shape of a cycle in the drive-state-machine branch
(`joints_OP_` set). -/
lemma cyclic_trace_opBranch (cr : Nat) (env : CycleEnv) (st : LoopState)
    (hOP : st.jointsOP = true) :
    (cyclic_pdo_loop cr env st).2 =
      [BusOp.receive, BusOp.process] ++
        (state_transition st.jointNo (env.statusWord st.jointNo)
          (st.ctrlWord st.jointNo) (env.actualPos st.jointNo)
          (st.targetPos st.jointNo) (st.drive st.jointNo)).writes ++
        steadyWrites (cyclic_pdo_loop cr env st).1 ++
        [BusOp.queue, BusOp.send] := by
  unfold cyclic_pdo_loop
  simp only [hOP, if_true]
  rw [steadyWrites_finishCycle]
  simp [finishCycle]

/-- The tail `finishCycle` does not touch the retry timestamp. -/
lemma finishCycle_stamp (s : LoopState) (tr : List BusOp) :
    (finishCycle s tr).1.stamp = s.stamp := by
  by_cases hb : s.jointsOpEnabled <;> simp [finishCycle, hb]

/-- Trace shape of a cycle in the operational-gate branch with the
10-second timeout elapsed. -/
lemma cyclic_trace_gateTimeout (cr : Nat) (env : CycleEnv) (st : LoopState)
    (hOP : st.jointsOP = false) (ht : 10 ≤ env.now - st.stamp) :
    (cyclic_pdo_loop cr env st).2 =
      [BusOp.receive, BusOp.process, BusOp.reset, BusOp.receive,
       BusOp.process] ++
        steadyWrites (cyclic_pdo_loop cr env st).1 ++
        [BusOp.queue, BusOp.send] := by
  unfold cyclic_pdo_loop
  simp only [hOP, ht, if_true, if_false]
  rw [if_neg Bool.false_ne_true, steadyWrites_finishCycle]
  simp [finishCycle]

/-- Trace shape of a cycle in the operational-gate branch with the
timeout not yet elapsed. -/
lemma cyclic_trace_gateWaiting (cr : Nat) (env : CycleEnv) (st : LoopState)
    (hOP : st.jointsOP = false) (ht : ¬ 10 ≤ env.now - st.stamp) :
    (cyclic_pdo_loop cr env st).2 =
      [BusOp.receive, BusOp.process] ++
        steadyWrites (cyclic_pdo_loop cr env st).1 ++
        [BusOp.queue, BusOp.send] := by
  unfold cyclic_pdo_loop
  simp only [hOP, ht, if_true, if_false]
  rw [if_neg Bool.false_ne_true, steadyWrites_finishCycle]
  simp [finishCycle]

/-- The retry timestamp after one cycle: restarted at `now` exactly when
the reset branch fired, unchanged otherwise. -/
lemma cyclic_stamp (cr : Nat) (env : CycleEnv) (st : LoopState) :
    (cyclic_pdo_loop cr env st).1.stamp =
      if st.jointsOP = false ∧ 10 ≤ env.now - st.stamp then env.now
      else st.stamp := by
  unfold cyclic_pdo_loop
  by_cases hOP : st.jointsOP = true
  · simp only [hOP, if_true]
    rw [finishCycle_stamp]
    simp
  · have hOPf : st.jointsOP = false := by
      revert hOP; cases st.jointsOP <;> simp
    simp only [hOPf]
    rw [if_neg Bool.false_ne_true]
    by_cases ht : 10 ≤ env.now - st.stamp
    · rw [if_pos ht, finishCycle_stamp]
      simp [ht]
    · rw [if_neg ht, finishCycle_stamp]
      simp [ht]

/-- Witness for the amended C3: the steady-state cycle of
`stateAllOpEnabled` (cursor at joint 0) performs no target write. -/
theorem c3_amended_steady_state_writes_witness :
    (cyclic_pdo_loop 1000 envAllOpEnabled stateAllOpEnabled).2 =
      [BusOp.receive, BusOp.process, BusOp.queue, BusOp.send] ∧
    (cyclic_pdo_loop 1000 envAllOpEnabled stateAllOpEnabled).1.targetPos =
      stateAllOpEnabled.targetPos ∧
    (cyclic_pdo_loop 1000 envAllOpEnabled stateAllOpEnabled).1.jointsOpEnabled
      = false :=
  (c3_amended_steady_state_writes 1000 envAllOpEnabled stateAllOpEnabled rfl
    (fun _ => by simp +decide [envAllOpEnabled]) (fun _ => rfl)).2 (by decide)

/-- Amended C4: every cycle performs queue and send exactly once, in the
order receive first, queue and send last; receive is performed once per
cycle except in the reset cycles (operational gate not yet passed and the
10-second timeout elapsed), where the retry performs it a second time. -/
theorem c4_amended_cycle_order (cr : Nat) (env : CycleEnv) (st : LoopState) :
    ∃ mid, (cyclic_pdo_loop cr env st).2 =
        BusOp.receive :: BusOp.process :: (mid ++ [BusOp.queue, BusOp.send]) ∧
      mid.count BusOp.queue = 0 ∧ mid.count BusOp.send = 0 ∧
      mid.count BusOp.receive =
        (if st.jointsOP = false ∧ 10 ≤ env.now - st.stamp then 1 else 0) := by
  by_cases hOP : st.jointsOP = true
  · refine ⟨(state_transition st.jointNo (env.statusWord st.jointNo)
        (st.ctrlWord st.jointNo) (env.actualPos st.jointNo)
        (st.targetPos st.jointNo) (st.drive st.jointNo)).writes ++
        steadyWrites (cyclic_pdo_loop cr env st).1, ?_, ?_, ?_, ?_⟩
    · rw [cyclic_trace_opBranch cr env st hOP]
      simp
    · simp [List.count_append,
        (st_writes_counts st.jointNo (env.statusWord st.jointNo)
          (st.ctrlWord st.jointNo) (env.actualPos st.jointNo)
          (st.targetPos st.jointNo) (st.drive st.jointNo)).2.2.1,
        (steadyWrites_counts (cyclic_pdo_loop cr env st).1).2.2.1]
    · simp [List.count_append,
        (st_writes_counts st.jointNo (env.statusWord st.jointNo)
          (st.ctrlWord st.jointNo) (env.actualPos st.jointNo)
          (st.targetPos st.jointNo) (st.drive st.jointNo)).2.2.2.1,
        (steadyWrites_counts (cyclic_pdo_loop cr env st).1).2.2.2.1]
    · simp [hOP, List.count_append,
        (st_writes_counts st.jointNo (env.statusWord st.jointNo)
          (st.ctrlWord st.jointNo) (env.actualPos st.jointNo)
          (st.targetPos st.jointNo) (st.drive st.jointNo)).1,
        (steadyWrites_counts (cyclic_pdo_loop cr env st).1).1]
  · have hOPf : st.jointsOP = false := by
      revert hOP; cases st.jointsOP <;> simp
    by_cases ht : 10 ≤ env.now - st.stamp
    · refine ⟨[BusOp.reset, BusOp.receive, BusOp.process] ++
        steadyWrites (cyclic_pdo_loop cr env st).1, ?_, ?_, ?_, ?_⟩
      · rw [cyclic_trace_gateTimeout cr env st hOPf ht]
        simp
      · simp [List.count_append,
          (steadyWrites_counts (cyclic_pdo_loop cr env st).1).2.2.1]
      · simp [List.count_append,
          (steadyWrites_counts (cyclic_pdo_loop cr env st).1).2.2.2.1]
      · simp [hOPf, ht, List.count_append,
          (steadyWrites_counts (cyclic_pdo_loop cr env st).1).1]
    · refine ⟨steadyWrites (cyclic_pdo_loop cr env st).1, ?_, ?_, ?_, ?_⟩
      · rw [cyclic_trace_gateWaiting cr env st hOPf ht]
        simp
      · exact (steadyWrites_counts (cyclic_pdo_loop cr env st).1).2.2.1
      · exact (steadyWrites_counts (cyclic_pdo_loop cr env st).1).2.2.2.1
      · simp [ht, (steadyWrites_counts (cyclic_pdo_loop cr env st).1).1]

/-- Claim C7: while not all joints are bus-operational, the master
reset-and-retry fires in a cycle iff at least 10 seconds have passed since
the stored timestamp; the timestamp is restarted exactly at each reset;
consequently a run of cycles all within 10 seconds of the last timestamp
performs no reset. -/
theorem c7_reset_once_per_window :
    (∀ (cr : Nat) (env : CycleEnv) (st : LoopState),
      BusOp.reset ∈ (cyclic_pdo_loop cr env st).2 ↔
        st.jointsOP = false ∧ 10 ≤ env.now - st.stamp) ∧
    (∀ (cr : Nat) (env : CycleEnv) (st : LoopState),
      (cyclic_pdo_loop cr env st).1.stamp =
        if st.jointsOP = false ∧ 10 ≤ env.now - st.stamp then env.now
        else st.stamp) ∧
    (∀ (cr : Nat) (envs : List CycleEnv) (st : LoopState),
      (∀ e ∈ envs, e.now - st.stamp < 10) →
      BusOp.reset ∉ (runCycles cr envs st).2) := by
  have hmem : ∀ (cr : Nat) (env : CycleEnv) (st : LoopState),
      BusOp.reset ∈ (cyclic_pdo_loop cr env st).2 ↔
        st.jointsOP = false ∧ 10 ≤ env.now - st.stamp := by
    intro cr env st
    by_cases hOP : st.jointsOP = true
    · rw [cyclic_trace_opBranch cr env st hOP]
      have hw := List.count_eq_zero.mp
        ((st_writes_counts st.jointNo (env.statusWord st.jointNo)
          (st.ctrlWord st.jointNo) (env.actualPos st.jointNo)
          (st.targetPos st.jointNo) (st.drive st.jointNo)).2.2.2.2)
      have hsw := List.count_eq_zero.mp
        ((steadyWrites_counts (cyclic_pdo_loop cr env st).1).2.2.2.2)
      simp [hOP, hw, hsw]
    · have hOPf : st.jointsOP = false := by
        revert hOP; cases st.jointsOP <;> simp
      by_cases ht : 10 ≤ env.now - st.stamp
      · rw [cyclic_trace_gateTimeout cr env st hOPf ht]
        simp [hOPf, ht]
      · rw [cyclic_trace_gateWaiting cr env st hOPf ht]
        have hsw := List.count_eq_zero.mp
          ((steadyWrites_counts (cyclic_pdo_loop cr env st).1).2.2.2.2)
        simp [hOPf, ht, hsw]
  refine ⟨hmem, fun cr env st => cyclic_stamp cr env st, ?_⟩
  intro cr envs
  induction envs with
  | nil => intro st _; simp [runCycles]
  | cons e rest ih =>
    intro st h
    have hne : ¬ (st.jointsOP = false ∧ 10 ≤ e.now - st.stamp) := by
      intro hc
      have := h e (List.mem_cons_self e rest)
      omega
    simp only [runCycles, List.mem_append]
    rintro (hin | hin)
    · exact hne ((hmem cr e st).mp hin)
    · refine ih (cyclic_pdo_loop cr e st).1 (fun e2 he2 => ?_) hin
      rw [cyclic_stamp, if_neg hne]
      exact h e2 (List.mem_cons_of_mem e he2)

/-- Witness for C7: a single cycle 1 second after the timestamp performs
no reset. -/
theorem c7_reset_once_per_window_witness :
    BusOp.reset ∉ (runCycles 1000 [envAllOpEnabled] stateWaitingOP).2 :=
  c7_reset_once_per_window.2.2 1000 [envAllOpEnabled] stateWaitingOP
    (fun e he => by
      simp only [List.mem_singleton] at he
      subst he
      norm_num [envAllOpEnabled, stateWaitingOP])
